import Mathlib

/-!
Verification development for the LinkedIn outreach pipeline
(`src/automation/connection_manager.py`, `src/scraping/profile_scraper.py`,
`src/scraping/element_detector.py`, `src/scraping/search_strategies.py`,
`src/scraping/prospect_discoverer.py`, `src/ai/message_generator.py`).

The Python code is shallowly embedded: every interaction with the outside
world (the browser page, the network, the text-generation API, random
draws) is supplied by an explicit environment record, and the functions
below reproduce the control flow of the corresponding Python functions
over that environment.  Randomized sleeps are recorded as events carrying
the requested uniform range (in seconds), so that timing claims become
claims about the emitted event trace.
-/

/-- Generic substring test: `containsSubstr s pat` models Python's
`pat in s` on strings. -/
def listContainsSub (pat : List Char) : List Char → Bool
  | [] => pat.isEmpty
  | c :: rest => pat.isPrefixOf (c :: rest) || listContainsSub pat rest

/-- Python `pat in s`. -/
def containsSubstr (s pat : String) : Bool :=
  listContainsSub pat.toList s.toList

/-- Python `str.strip()`: remove leading and trailing whitespace
(defined over the character list so that it is kernel-reducible). -/
def strTrim (s : String) : String :=
  String.mk
    (((s.toList.dropWhile Char.isWhitespace).reverse.dropWhile
        Char.isWhitespace).reverse)

/-- Python `str.lower()`. -/
def strToLower (s : String) : String :=
  String.mk (s.toList.map Char.toLower)

/-- Python `str.startswith(pat)`. -/
def strStartsWith (s pat : String) : Bool :=
  pat.toList.isPrefixOf s.toList

/-- Helper of `splitLines`: accumulates the current line reversed. -/
def splitLinesAux (cur : List Char) : List Char → List (List Char)
  | [] => [cur.reverse]
  | c :: rest =>
    if c = '\n' then cur.reverse :: splitLinesAux [] rest
    else splitLinesAux (c :: cur) rest

/-- Python `str.split("\n")` (keeps empty pieces). -/
def splitLines (s : String) : List String :=
  (splitLinesAux [] s.toList).map String.mk

/-- One experience entry as produced by `ProfileScraper._parse_experience`. -/
structure ExperienceEntry where
  title : String
  company : String
  description : String
  deriving Repr, DecidableEq

/-- `ProfileData` from `src/scraping/profile_scraper.py` (the dataclass);
`__post_init__` replaces `None` lists by `[]`, so lists default to `[]`. -/
structure ProfileData where
  name : String := ""
  job_title : String := ""
  company : String := ""
  industry : String := ""
  location : String := ""
  summary : String := ""
  skills : List String := []
  education : List String := []
  experience : List ExperienceEntry := []
  recent_posts : List String := []
  deriving Repr, DecidableEq

/-- The fresh `ProfileData()` a new `ProfileScraper` starts from. -/
def emptyProfile : ProfileData := {}

/-- The context score computed inside
`ProfileScraper.validate_profile_data` (profile_scraper.py lines 327-337):
summary +2, skills +1, experience +2, education +1, recent posts +2.
A Python string/list is truthy iff non-empty. -/
def contextScore (p : ProfileData) : Nat :=
  (if p.summary ≠ "" then 2 else 0) +
  (if p.skills ≠ [] then 1 else 0) +
  (if p.experience ≠ [] then 2 else 0) +
  (if p.education ≠ [] then 1 else 0) +
  (if p.recent_posts ≠ [] then 2 else 0)

/-- `ProfileScraper.validate_profile_data` (profile_scraper.py lines 317-344):
fails when any of name/job_title/company is falsy, otherwise requires
`contextScore ≥ 3`. -/
def validate_profile_data (p : ProfileData) : Bool :=
  if p.name = "" ∨ p.job_title = "" ∨ p.company = "" then false
  else decide (3 ≤ contextScore p)

/-- `GeneratedMessage` from `src/ai/message_generator.py`, restricted to
the fields the connection pipeline reads. -/
structure GeneratedMessage where
  message : String
  fallback_used : Bool
  deriving Repr, DecidableEq

/-- Outcome of the Groq API call inside
`MessageGenerator.generate_personalized_message`: the call can raise, the
response can miss choices / message / content (each of which raises a
`ValueError` inside the same `try`), or it yields a content string. -/
inductive ApiOutcome
  | apiRaise (e : String)
  | noChoices
  | noMessage
  | nullContent
  | content (s : String)
  deriving Repr, DecidableEq

/-- `MessageGenerator.generate_personalized_message`
(message_generator.py lines 51-126): on a successful API reply the
message is `content.strip()` with `fallback_used = False`; every
exceptional path falls back to the template message (produced by the
external template collaborator, supplied here as `fallbackMessage`)
with `fallback_used = True`. -/
def generate_personalized_message (api : ApiOutcome) (fallbackMessage : String) :
    GeneratedMessage :=
  match api with
  | ApiOutcome.content s => { message := strTrim s, fallback_used := false }
  | _ => { message := fallbackMessage, fallback_used := true }

/-- Outcome of one `detector.find_connect_button()` attempt inside
`ConnectionManager._find_connect_button` together with the subsequent
`is_visible()` check: the call (or the visibility check) can raise,
return no button, or return a button that is or is not visible. -/
inductive ConnectOutcome
  | raised (e : String)
  | notFound
  | found (visible : Bool)
  deriving Repr, DecidableEq

/-- Whether an attempt outcome passes the
`if connect_button and await connect_button.is_visible()` test
(connection_manager.py line 99); a raised exception is caught and counts
as a miss. -/
def isHit : ConnectOutcome → Bool
  | ConnectOutcome.found true => true
  | _ => false

/-- Observable events of one `send_connection_request` run. -/
inductive Ev
  | nav
  | scrollSim
  | extractData
  | validateData
  | generateMsg
  | findConnectCall
  | backoff (lo hi : Nat)
  | connectClick
  | modalWait
  | findMsgInput
  | typeMsg
  | findSendButton
  | sendClick
  deriving Repr, DecidableEq

/-- Environment of one `send_connection_request` run: results of every
external interaction, in program order.  `profile` is the scraper's
`profile_data` after `extract_profile_data` (extraction itself is modelled
separately, see `extract_profile_data` below). -/
structure ConnEnv where
  navResult : Except String Unit
  scrollResult : Except String Unit
  profile : ProfileData
  genResult : GeneratedMessage
  connect : Nat → ConnectOutcome
  clickResult : Except String Unit
  modalWaitResult : Except String Unit
  msgInputFound : Bool
  inputInteract : Except String Unit
  sendButtonFound : Bool
  sendClickResult : Except String Unit

/-- `ConnectionManager._find_connect_button` retry loop
(connection_manager.py lines 96-107): up to `n` attempts starting at
attempt index `i`; a hit returns immediately, a miss sleeps
`random.uniform(1, 3)` and retries.  Returns whether a button was found
together with the emitted events. -/
def findConnectLoop (connect : Nat → ConnectOutcome) : Nat → Nat → Bool × List Ev
  | _, 0 => (false, [])
  | i, n + 1 =>
    if isHit (connect i) then (true, [Ev.findConnectCall])
    else
      let r := findConnectLoop connect (i + 1) n
      (r.1, Ev.findConnectCall :: Ev.backoff 1 3 :: r.2)

/-- `ConnectionManager._handle_connection_modal`
(connection_manager.py lines 109-140): waits for the modal, finds the
message input, clears and types the message, finds and clicks Send.
Any exception is caught and yields `False`; a missing input or Send
button also yields `False`.  Returns the boolean result and the events. -/
def handle_connection_modal (env : ConnEnv) : Bool × List Ev :=
  match env.modalWaitResult with
  | Except.error _ => (false, [Ev.modalWait])
  | Except.ok _ =>
    if ¬ env.msgInputFound then (false, [Ev.modalWait, Ev.findMsgInput])
    else
      match env.inputInteract with
      | Except.error _ => (false, [Ev.modalWait, Ev.findMsgInput, Ev.typeMsg])
      | Except.ok _ =>
        if env.sendButtonFound then
          match env.sendClickResult with
          | Except.error _ =>
            (false, [Ev.modalWait, Ev.findMsgInput, Ev.typeMsg, Ev.findSendButton])
          | Except.ok _ =>
            (true, [Ev.modalWait, Ev.findMsgInput, Ev.typeMsg, Ev.findSendButton,
                    Ev.sendClick])
        else (false, [Ev.modalWait, Ev.findMsgInput, Ev.typeMsg, Ev.findSendButton])

/-- The result dict of `ConnectionManager.send_connection_request`
(connection_manager.py lines 32-39), without the timing fields. -/
structure ConnResult where
  success : Bool
  profile_url : String
  message_sent : String
  error : String
  deriving Repr, DecidableEq

/-- `ConnectionManager.send_connection_request`
(connection_manager.py lines 30-88): navigate, scroll-simulate, extract,
validate, generate the message, locate and click Connect, handle the
modal.  Exceptions from navigation / scrolling / clicking propagate to
the outer `except` which stores `str(e)` in `error`.  Returns the result
record and the event trace. -/
def send_connection_request (env : ConnEnv) (profile_url : String) :
    ConnResult × List Ev :=
  let base : ConnResult :=
    { success := false, profile_url := profile_url, message_sent := "", error := "" }
  match env.navResult with
  | Except.error e => ({ base with error := e }, [Ev.nav])
  | Except.ok _ =>
    match env.scrollResult with
    | Except.error e => ({ base with error := e }, [Ev.nav, Ev.scrollSim])
    | Except.ok _ =>
      let evs0 := [Ev.nav, Ev.scrollSim, Ev.extractData, Ev.validateData]
      if ¬ validate_profile_data env.profile then
        ({ base with error := "Insufficient profile data for personalization" }, evs0)
      else
        let evs1 := evs0 ++ [Ev.generateMsg]
        let fc := findConnectLoop env.connect 0 3
        let evs2 := evs1 ++ fc.2
        if ¬ fc.1 then
          ({ base with error := "Could not find Connect button" }, evs2)
        else
          match env.clickResult with
          | Except.error e => ({ base with error := e }, evs2 ++ [Ev.connectClick])
          | Except.ok _ =>
            let m := handle_connection_modal env
            let evs3 := evs2 ++ [Ev.connectClick] ++ m.2
            if m.1 then
              ({ base with success := true, message_sent := env.genResult.message }, evs3)
            else
              ({ base with error := "Failed to send message in connection modal" }, evs3)

/-- Number of occurrences of an event in a trace. -/
def countEv (e : Ev) (l : List Ev) : Nat :=
  l.count e

/-- Observable events of a `send_bulk_requests` run: a requested random
sleep (carrying the uniform range in seconds) or one call of
`send_connection_request` on a prospect URL. -/
inductive BulkEv
  | delay (lo hi : Nat)
  | attempt (url : String)
  deriving Repr, DecidableEq

/-- The `rate_limit_indicators` list of
`ConnectionManager.handle_rate_limiting` (connection_manager.py
lines 234-237). -/
def rate_limit_indicators : List String :=
  ["rate limit", "too many requests", "temporarily blocked",
   "unusual activity", "verify your identity"]

/-- `ConnectionManager.handle_rate_limiting` (connection_manager.py
lines 232-249): if any indicator occurs in the lowercased error message,
sleep `random.randint(300, 900)` and return `True`; otherwise return
`False` without sleeping. -/
def handle_rate_limiting (error_message : String) : Bool × List BulkEv :=
  if rate_limit_indicators.any
      (fun ind => containsSubstr (strToLower error_message) ind) then
    (true, [BulkEv.delay 300 900])
  else
    (false, [])

/-- Loop body of `ConnectionManager.send_bulk_requests`
(connection_manager.py lines 198-230).  The Python iterates
`enumerate(prospects[:max_requests])`; at each iteration it breaks when
`successful_requests >= max_requests`, sleeps `random.uniform(30, 120)`
when `i > 0`, runs `send_connection_request` (whose environment for the
`i`-th iteration is `envs i`), records the result and counts successes.
`i` is the enumeration index and `succ` the current success count. -/
def send_bulk_loop (envs : Nat → ConnEnv) (maxRequests : Nat) :
    List String → Nat → Nat → List ConnResult × List BulkEv
  | [], _, _ => ([], [])
  | url :: rest, i, succ =>
    if maxRequests ≤ succ then ([], [])
    else
      ((send_connection_request (envs i) url).1 ::
        (send_bulk_loop envs maxRequests rest (i + 1)
          (succ + if ((send_connection_request (envs i) url).1).success then 1
                  else 0)).1,
       (if 0 < i then [BulkEv.delay 30 120] else []) ++
         BulkEv.attempt url ::
           (send_bulk_loop envs maxRequests rest (i + 1)
             (succ + if ((send_connection_request (envs i) url).1).success then 1
                     else 0)).2)

/-- `ConnectionManager.send_bulk_requests` over the prospects' URLs:
the Python slices `prospects[:max_requests]` before iterating. -/
def send_bulk_requests (envs : Nat → ConnEnv) (prospects : List String)
    (maxRequests : Nat) : List ConnResult × List BulkEv :=
  send_bulk_loop envs maxRequests (prospects.take maxRequests) 0 0

/-- Number of send attempts recorded in a bulk trace. -/
def countAttempts (evs : List BulkEv) : Nat :=
  (evs.filter fun e => match e with
    | BulkEv.attempt _ => true
    | _ => false).length

/-- The bulk trace shape with a 30-120s delay before every attempt. -/
def delayedAlternate (us : List String) : List BulkEv :=
  (us.map fun v => [BulkEv.delay 30 120, BulkEv.attempt v]).flatten

/-- The bulk trace shape with no delay before the first attempt and a
30-120s delay before every later one. -/
def alternate : List String → List BulkEv
  | [] => []
  | u :: rest => BulkEv.attempt u :: delayedAlternate rest

/-!  Locator resolver (`ElementDetector.find_connect_button` /
`find_message_input` / `find_send_button`, element_detector.py lines
80-143).  Each of the three methods runs the same loop over an ordered
strategy list: call the strategy, and return its element when it is
non-`None` and currently visible; a raised exception (from the strategy
or from the visibility check) is caught and treated as a miss. -/

/-- Outcome of evaluating one detection strategy (together with the
resolver's own `is_visible()` check on its result). -/
inductive StratOutcome (α : Type)
  | raised (e : String)
  | noMatch
  | found (a : α) (visible : Bool)
  deriving Repr, DecidableEq

/-- The shared resolver loop: first strategy whose result is a visible
element wins; later strategies are not evaluated.  Returns the winning
element (if any) and the number of strategies evaluated. -/
def resolve_strategies {α : Type} : List (StratOutcome α) → Option α × Nat
  | [] => (none, 0)
  | StratOutcome.found a true :: _ => (some a, 1)
  | StratOutcome.raised _ :: rest =>
    let r := resolve_strategies rest
    (r.1, r.2 + 1)
  | StratOutcome.noMatch :: rest =>
    let r := resolve_strategies rest
    (r.1, r.2 + 1)
  | StratOutcome.found _ false :: rest =>
    let r := resolve_strategies rest
    (r.1, r.2 + 1)

/-- Whether a strategy outcome is a currently-visible match. -/
def isVisibleMatch {α : Type} : StratOutcome α → Bool
  | StratOutcome.found _ true => true
  | _ => false

/-!  Prospect discovery (`src/scraping/prospect_discoverer.py` and
`src/scraping/search_strategies.py`). -/

/-- A discovered prospect dict as built by
`SearchStrategies._extract_profile_data_from_item`
(search_strategies.py lines 208-215); `search_source` is always
`"linkedin_search"` and is omitted. -/
structure Prospect where
  linkedin_url : String
  name : String
  job_title : String
  location : String
  company : String
  deriving Repr, DecidableEq

/-- The `relevant_keywords` list shared by
`SearchStrategies._validate_profile_data` (search_strategies.py line 235)
and `ProspectDiscoverer._validate_profile` (prospect_discoverer.py
line 203). -/
def relevant_keywords : List String :=
  ["hiring", "talent", "recruit", "hr", "people", "human resources"]

/-- `SearchStrategies._validate_profile_data`
(search_strategies.py lines 222-239): name and location non-empty with
stripped length ≥ 2, job title non-empty with stripped length ≥ 3, and
the lowercased job title contains a relevant keyword. -/
def search_validate_profile_data (name job_title location : String) : Bool :=
  if name = "" ∨ (strTrim name).length < 2 then false
  else if job_title = "" ∨ (strTrim job_title).length < 3 then false
  else if location = "" ∨ (strTrim location).length < 2 then false
  else relevant_keywords.any fun k => containsSubstr (strToLower job_title) k

/-- Raw data of one search-result item as read by
`SearchStrategies._extract_profile_data_from_item`
(search_strategies.py lines 178-220): the `href` of the profile link
(`none` when the link or attribute is missing) and the inner texts of the
name / job title / location / company elements (`""` when not visible). -/
structure SearchItem where
  href : Option String
  name : String
  job_title : String
  location : String
  company : String
  deriving Repr, DecidableEq

/-- `SearchStrategies._extract_profile_data_from_item`
(search_strategies.py lines 178-220): reject when the URL is missing,
empty or does not contain `"/in/"`; accept when
`_validate_profile_data` passes, producing a dict of stripped fields. -/
def extract_profile_data_from_item (it : SearchItem) : Option Prospect :=
  match it.href with
  | none => none
  | some url =>
    if url = "" ∨ ¬ containsSubstr url "/in/" then none
    else if search_validate_profile_data it.name it.job_title it.location then
      some { linkedin_url := url, name := strTrim it.name,
             job_title := strTrim it.job_title, location := strTrim it.location,
             company := strTrim it.company }
    else none

/-- `ProspectDiscoverer._validate_profile`
(prospect_discoverer.py lines 188-206): each of linkedin_url / name /
job_title / location is non-empty with stripped length ≥ 2; the URL
contains `"/in/"` and starts with `"http"`; the lowercased job title
contains a relevant keyword. -/
def discoverer_validate_profile (p : Prospect) : Bool :=
  if p.linkedin_url = "" ∨ (strTrim p.linkedin_url).length < 2 then false
  else if p.name = "" ∨ (strTrim p.name).length < 2 then false
  else if p.job_title = "" ∨ (strTrim p.job_title).length < 2 then false
  else if p.location = "" ∨ (strTrim p.location).length < 2 then false
  else if ¬ containsSubstr p.linkedin_url "/in/" ∨
          ¬ strStartsWith p.linkedin_url "http" then false
  else relevant_keywords.any fun k => containsSubstr (strToLower p.job_title) k

/-- `ProspectDiscoverer._process_profile`
(prospect_discoverer.py lines 160-186): reject a URL already in the
persisted set loaded at run start, then `_validate_profile`, then the
live profile-visit validation (whose outcome `visitOk` the environment
supplies); any exception also yields `False`. -/
def process_profile (existing_urls : List String) (visitOk : Bool)
    (p : Prospect) : Bool :=
  if p.linkedin_url ∈ existing_urls then false
  else if ¬ discoverer_validate_profile p then false
  else visitOk

/-- The accumulation of `discovered_prospects` inside
`ProspectDiscoverer.discover_prospects` (prospect_discoverer.py lines
101-106 and 134-139): the extracted profiles arrive as a stream, each
paired with its live-visit outcome; the loop stops at `maxProspects` and
appends every profile accepted by `_process_profile`. -/
def accumulate (existing_urls : List String) (maxProspects : Nat) :
    List Prospect → List (Prospect × Bool) → List Prospect
  | acc, [] => acc
  | acc, (p, vOk) :: rest =>
    if maxProspects ≤ acc.length then acc
    else if process_profile existing_urls vOk p then
      accumulate existing_urls maxProspects (acc ++ [p]) rest
    else
      accumulate existing_urls maxProspects acc rest

/-- `ProspectDiscoverer._final_validation_and_deduplication`
(prospect_discoverer.py lines 251-267): walk the accumulated list with a
seen-URL set; a URL already seen is skipped; otherwise the URL is added
to the seen set (before validation!) and the prospect is kept only when
`_validate_profile` passes. -/
def final_validation_and_deduplication :
    List Prospect → List String → List Prospect
  | [], _ => []
  | p :: rest, seen =>
    if p.linkedin_url ∈ seen then final_validation_and_deduplication rest seen
    else if discoverer_validate_profile p then
      p :: final_validation_and_deduplication rest (p.linkedin_url :: seen)
    else
      final_validation_and_deduplication rest (p.linkedin_url :: seen)

/-- The deduplication inside `ProspectDiscoverer.save_prospects`
(prospect_discoverer.py lines 276-284): walk `existing + new` keeping a
prospect only when its URL is non-empty and unseen. -/
def save_prospects_merge : List Prospect → List String → List Prospect
  | [], _ => []
  | p :: rest, seen =>
    if p.linkedin_url ≠ "" ∧ p.linkedin_url ∉ seen then
      p :: save_prospects_merge rest (p.linkedin_url :: seen)
    else
      save_prospects_merge rest seen

/-- `ProspectDiscoverer.save_prospects`: the persisted list after a run. -/
def save_prospects (existing new : List Prospect) : List Prospect :=
  save_prospects_merge (existing ++ new) []

/-!  Profile extraction (`ProfileScraper.extract_profile_data`,
profile_scraper.py lines 54-291).  The page is modelled as oracles from
selector strings to outcomes; each extraction group walks its own
candidate selector list with a per-selector `try`/`except` that turns
any exception into "try the next selector". -/

/-- Outcome of querying one simple text selector
(`locator(sel).first` + `is_visible()` + `inner_text()`): an exception
somewhere, a non-visible element, or the element's inner text. -/
inductive FieldOutcome
  | err (e : String)
  | notVisible
  | text (s : String)
  deriving Repr, DecidableEq

/-- Outcome of querying a section selector that is then enumerated for
items (skills / experience / education): exception, non-visible section,
or the list of item inner texts (`none` for an item whose `inner_text`
raised). -/
inductive SectionOutcome
  | err (e : String)
  | notVisible
  | items (its : List (Option String))
  deriving Repr, DecidableEq

/-- Outcome of a recent-posts selector (`locator(sel).all()` directly,
no visibility gate): exception or the list of post inner texts. -/
inductive ItemsOutcome
  | err (e : String)
  | items (its : List (Option String))
  deriving Repr, DecidableEq

/-- The page as seen by the extractor: one oracle per query shape. -/
structure PageDoc where
  basic : String → FieldOutcome
  skillsSec : String → SectionOutcome
  experienceSec : String → SectionOutcome
  educationSec : String → SectionOutcome
  postsSec : String → ItemsOutcome

/-- `name_selectors` (profile_scraper.py lines 78-86). -/
def nameSelectors : List String :=
  ["h1[data-test-id=\"profile-name\"]",
   "h2[data-test-id=\"profile-name\"]",
   "[data-test-id=\"profile-name\"]",
   "h1 span", "h2 span", "h1", "h2"]

/-- `job_selectors` (profile_scraper.py lines 102-110). -/
def jobSelectors : List String :=
  ["[data-test-id=\"job-title\"]",
   "[data-field=\"job-title\"]",
   "[data-test-id=\"headline\"]",
   "h2:has-text(\" at \")", "h3:has-text(\" at \")", "span:has-text(\" at \")",
   "div:has-text(\" at \")"]

/-- `location_selectors` (profile_scraper.py lines 130-135). -/
def locationSelectors : List String :=
  ["[data-test-id=\"location\"]",
   "[data-field=\"location\"]",
   "span:has-text(\",\")", "div:has-text(\",\")"]

/-- `summary_selectors` (profile_scraper.py lines 153-158). -/
def summarySelectors : List String :=
  ["[data-test-id=\"summary\"]",
   "[data-field=\"summary\"]",
   "section:has-text(\"About\")", "div:has-text(\"About\")"]

/-- `skills_selectors` (profile_scraper.py lines 174-179). -/
def skillsSelectors : List String :=
  ["[data-test-id=\"skills\"]",
   "[data-field=\"skills\"]",
   "section:has-text(\"Skills\")", "div:has-text(\"Skills\")"]

/-- `experience_selectors` (profile_scraper.py lines 203-208). -/
def experienceSelectors : List String :=
  ["[data-test-id=\"experience\"]",
   "[data-field=\"experience\"]",
   "section:has-text(\"Experience\")", "div:has-text(\"Experience\")"]

/-- `education_selectors` (profile_scraper.py lines 237-242). -/
def educationSelectors : List String :=
  ["[data-test-id=\"education\"]",
   "[data-field=\"education\"]",
   "section:has-text(\"Education\")", "div:has-text(\"Education\")"]

/-- `post_selectors` (profile_scraper.py lines 267-272). -/
def postSelectors : List String :=
  ["[data-test-id=\"post\"]",
   "[data-field=\"post\"]",
   "article:has-text(\"•\")", "div:has-text(\"•\")"]

/-- The per-selector loop of the simple text groups: the first visible
selector whose text passes `accept` wins; exceptions and non-visible
elements fall through to the next selector. -/
def firstBasic (page : String → FieldOutcome) (accept : String → Bool) :
    List String → Option String
  | [] => none
  | sel :: rest =>
    match page sel with
    | FieldOutcome.text s =>
      if accept s then some s else firstBasic page accept rest
    | _ => firstBasic page accept rest

/-- Splits a character list at the first occurrence of `sep`
(Python `s.split(sep, 1)` when `sep` occurs in `s`). -/
def splitFirstAux (sep : List Char) : List Char → Option (List Char × List Char)
  | [] => none
  | c :: rest =>
    if sep.isPrefixOf (c :: rest) then some ([], (c :: rest).drop sep.length)
    else
      match splitFirstAux sep rest with
      | some p => some (c :: p.1, p.2)
      | none => none

/-- Python `s.split(sep, 1)` for a separator occurring in `s`; when the
separator does not occur, returns `(s, "")` (the callers below only use
it after a containment test). -/
def splitFirst (s sep : String) : String × String :=
  match splitFirstAux sep.toList s.toList with
  | some p => (String.mk p.1, String.mk p.2)
  | none => (s, "")

/-- The skills item loop (profile_scraper.py lines 186-193): keep an item
whose text is non-empty, longer than 2 and not already present (the raw
text is compared against the stored stripped texts, as in the source);
an item that raised contributes nothing. -/
def add_skills (acc : List String) : List (Option String) → List String
  | [] => acc
  | none :: rest => add_skills acc rest
  | some t :: rest =>
    if t ≠ "" ∧ 2 < t.length ∧ t ∉ acc then add_skills (acc ++ [strTrim t]) rest
    else add_skills acc rest

/-- The skills selector loop (profile_scraper.py lines 181-200): process
the first visible section's items; stop as soon as the skills list is
non-empty, otherwise try the next selector. -/
def extract_skills (sk : String → SectionOutcome) (init : List String) :
    List String → List String
  | [] => init
  | sel :: rest =>
    match sk sel with
    | SectionOutcome.items its =>
      let acc := add_skills init its
      if acc.isEmpty then extract_skills sk acc rest else acc
    | _ => extract_skills sk init rest

/-- `ProfileScraper._parse_experience` (profile_scraper.py lines
293-315): split on newlines, strip the first two lines, scrub date
ranges (the `re.sub` is abstracted as the pure string transformation
`stripDates`), and require both parts non-empty; the description is the
first 200 characters of the raw text. -/
def parse_experience (stripDates : String → String) (exp_text : String) :
    Option ExperienceEntry :=
  match splitLines exp_text with
  | l0 :: l1 :: _ =>
    let title := stripDates (strTrim l0)
    let company := stripDates (strTrim l1)
    if title ≠ "" ∧ company ≠ "" then
      some { title := title, company := company,
             description := String.mk (exp_text.toList.take 200) }
    else none
  | _ => none

/-- The experience item loop (profile_scraper.py lines 216-225): only
items with text longer than 20 that parse successfully are appended. -/
def add_experiences (stripDates : String → String)
    (acc : List ExperienceEntry) : List (Option String) → List ExperienceEntry
  | [] => acc
  | none :: rest => add_experiences stripDates acc rest
  | some t :: rest =>
    if t ≠ "" ∧ 20 < t.length then
      match parse_experience stripDates t with
      | some e => add_experiences stripDates (acc ++ [e]) rest
      | none => add_experiences stripDates acc rest
    else add_experiences stripDates acc rest

/-- The experience selector loop (profile_scraper.py lines 210-232);
the source limits to the first 3 items (`exp_items[:3]`). -/
def extract_experience (ex : String → SectionOutcome)
    (stripDates : String → String) (init : List ExperienceEntry) :
    List String → List ExperienceEntry
  | [] => init
  | sel :: rest =>
    match ex sel with
    | SectionOutcome.items its =>
      let acc := add_experiences stripDates init (its.take 3)
      if acc.isEmpty then extract_experience ex stripDates acc rest else acc
    | _ => extract_experience ex stripDates init rest

/-- The education item loop (profile_scraper.py lines 249-255): the
first 2 items with text longer than 10 are appended stripped. -/
def add_education (acc : List String) : List (Option String) → List String
  | [] => acc
  | none :: rest => add_education acc rest
  | some t :: rest =>
    if t ≠ "" ∧ 10 < t.length then add_education (acc ++ [strTrim t]) rest
    else add_education acc rest

/-- The education selector loop (profile_scraper.py lines 244-262);
the source limits to the first 2 items (`edu_items[:2]`). -/
def extract_education (ed : String → SectionOutcome) (init : List String) :
    List String → List String
  | [] => init
  | sel :: rest =>
    match ed sel with
    | SectionOutcome.items its =>
      let acc := add_education init (its.take 2)
      if acc.isEmpty then extract_education ed acc rest else acc
    | _ => extract_education ed init rest

/-- The recent-posts item loop (profile_scraper.py lines 277-283): the
first 3 posts with text longer than 30 are appended stripped. -/
def add_posts (acc : List String) : List (Option String) → List String
  | [] => acc
  | none :: rest => add_posts acc rest
  | some t :: rest =>
    if t ≠ "" ∧ 30 < t.length then add_posts (acc ++ [strTrim t]) rest
    else add_posts acc rest

/-- The recent-posts selector loop (profile_scraper.py lines 274-289). -/
def extract_posts (po : String → ItemsOutcome) (init : List String) :
    List String → List String
  | [] => init
  | sel :: rest =>
    match po sel with
    | ItemsOutcome.items its =>
      let acc := add_posts init (its.take 3)
      if acc.isEmpty then extract_posts po acc rest else acc
    | ItemsOutcome.err _ => extract_posts po init rest

/-- Acceptance test of the name loop (profile_scraper.py line 93). -/
def acceptName (s : String) : Bool := s ≠ "" ∧ 1 < (strTrim s).length

/-- Acceptance test of the job loop (profile_scraper.py line 117). -/
def acceptJob (s : String) : Bool := s ≠ "" ∧ containsSubstr s " at "

/-- Acceptance test of the location loop (profile_scraper.py line 142). -/
def acceptLocation (s : String) : Bool := s ≠ "" ∧ containsSubstr s ","

/-- Acceptance test of the summary loop (profile_scraper.py line 165). -/
def acceptSummary (s : String) : Bool := s ≠ "" ∧ 50 < s.length

/-- The three extraction passes `_extract_basic_info`,
`_extract_professional_info`, `_extract_additional_info`
(profile_scraper.py lines 75-291, invoked at lines 64-66) run in order
on the scraper's current `profile_data` (`init`): each group overwrites
its fields only when its selector loop succeeds.  In the program as
written these passes are unreachable (see `extract_profile_data`); this
definition models what the source of lines 64-66/75-291 computes. -/
def run_extractions (stripDates : String → String) (page : PageDoc)
    (init : ProfileData) : ProfileData :=
  let name :=
    match firstBasic page.basic acceptName nameSelectors with
    | some s => strTrim s
    | none => init.name
  let jobCompany :=
    match firstBasic page.basic acceptJob jobSelectors with
    | some s =>
      let p := splitFirst s " at "
      (strTrim p.1, strTrim p.2)
    | none => (init.job_title, init.company)
  let location :=
    match firstBasic page.basic acceptLocation locationSelectors with
    | some s => strTrim s
    | none => init.location
  let summary :=
    match firstBasic page.basic acceptSummary summarySelectors with
    | some s => strTrim s
    | none => init.summary
  { init with
    name := name
    job_title := jobCompany.1
    company := jobCompany.2
    location := location
    summary := summary
    skills := extract_skills page.skillsSec init.skills skillsSelectors
    experience :=
      extract_experience page.experienceSec stripDates init.experience
        experienceSelectors
    education := extract_education page.educationSec init.education educationSelectors
    recent_posts := extract_posts page.postsSec init.recent_posts postSelectors }

/-- `ProfileScraper.extract_profile_data` (profile_scraper.py lines
54-73): inside the `try`, navigate (line 60) and then call
`self.detector.simulate_human_behavior(self.page, "scroll")` (line 61).
`ElementDetector` defines no `simulate_human_behavior` method (the
underscore-prefixed variants live on other classes), so when navigation
succeeds this attribute access raises `AttributeError` on every call;
either way the `except` at line 71 catches the exception and returns the
current `profile_data` unchanged.  The extraction passes at lines 64-66
are therefore never reached, and the function is a constant function of
its inputs: it returns `init` for every page. -/
def extract_profile_data (_stripDates : String → String)
    (navResult : Except String Unit) (_page : PageDoc)
    (init : ProfileData) : ProfileData :=
  match navResult with
  | Except.error _ => init
  | Except.ok _ => init

/-!  Concrete environments used by the witnesses below. -/

/-- A profile with all required fields and context score 4. -/
def richProfile : ProfileData :=
  { name := "Jane Roe", job_title := "Recruiter", company := "Acme"
    summary := "An experienced recruiter focused on engineering hiring."
    experience := [{ title := "Recruiter", company := "Acme", description := "d" }] }

/-- An environment in which every external step succeeds. -/
def envOK : ConnEnv :=
  { navResult := Except.ok (), scrollResult := Except.ok ()
    profile := richProfile
    genResult := { message := "Hello there", fallback_used := false }
    connect := fun _ => ConnectOutcome.found true
    clickResult := Except.ok (), modalWaitResult := Except.ok ()
    msgInputFound := true, inputInteract := Except.ok ()
    sendButtonFound := true, sendClickResult := Except.ok () }

/-- Like `envOK` but the scraper extracted nothing usable. -/
def envBare : ConnEnv := { envOK with profile := emptyProfile }

/-!  General lemmas about the embedded functions. -/

/-- `validate_profile_data` is false exactly when a required field is
missing or the context score is below 3. -/
theorem validate_profile_data_eq_false (p : ProfileData)
    (h : p.name = "" ∨ p.job_title = "" ∨ p.company = "" ∨ contextScore p < 3) :
    validate_profile_data p = false := by
  unfold validate_profile_data
  rcases h with h | h | h | h
  · simp [h]
  · simp [h]
  · simp [h]
  · split
    · rfl
    · simpa using Nat.not_le.mpr h

/-- Every event the connect-button retry loop emits is a detector call
or a 1-3s backoff. -/
theorem findConnectLoop_trace_events (c : Nat → ConnectOutcome) :
    ∀ n i, ∀ e ∈ (findConnectLoop c i n).2,
      e = Ev.findConnectCall ∨ e = Ev.backoff 1 3 := by
  intro n
  induction n with
  | zero => intro i e he; simp [findConnectLoop] at he
  | succ n ih =>
    intro i e he
    unfold findConnectLoop at he
    by_cases hh : isHit (c i)
    · simp [hh] at he
      exact Or.inl he
    · simp [hh] at he
      rcases he with rfl | rfl | he
      · exact Or.inl rfl
      · exact Or.inr rfl
      · exact ih (i + 1) e he

/-- Every event the modal handler emits is one of the five modal events. -/
theorem modal_trace_events (env : ConnEnv) :
    ∀ e ∈ (handle_connection_modal env).2,
      e = Ev.modalWait ∨ e = Ev.findMsgInput ∨ e = Ev.typeMsg ∨
      e = Ev.findSendButton ∨ e = Ev.sendClick := by
  unfold handle_connection_modal
  cases env.modalWaitResult <;>
    cases env.msgInputFound <;>
      cases env.inputInteract <;>
        cases env.sendButtonFound <;>
          cases env.sendClickResult <;>
            · intro e he
              simp at he
              tauto

/-- C1 helper: the message-generation event never occurs in the
connect-button loop trace. -/
theorem generateMsg_not_in_findConnectLoop (c : Nat → ConnectOutcome)
    (i n : Nat) : Ev.generateMsg ∉ (findConnectLoop c i n).2 := by
  intro h
  rcases findConnectLoop_trace_events c n i _ h with h' | h' <;> exact Ev.noConfusion h'

/-- C1 helper: the message-generation event never occurs in the modal
trace. -/
theorem generateMsg_not_in_modal (env : ConnEnv) :
    Ev.generateMsg ∉ (handle_connection_modal env).2 := by
  intro h
  rcases modal_trace_events env _ h with h' | h' | h' | h' | h' <;> exact Ev.noConfusion h'

/-- **C1** (error_handling): a profile whose extracted data is missing
any of name / job title / company, or whose sufficiency score is below 3
(summary +2, skills +1, experience +2, education +1, recent activity +2),
is rejected: `send_connection_request` returns a failed result and the
message-generation collaborator is never invoked (no `generateMsg` event
occurs in the run's trace). -/
theorem insufficiency_blocks_message_generation (env : ConnEnv) (url : String)
    (h : env.profile.name = "" ∨ env.profile.job_title = "" ∨
         env.profile.company = "" ∨ contextScore env.profile < 3) :
    (send_connection_request env url).1.success = false ∧
    Ev.generateMsg ∉ (send_connection_request env url).2 := by
  have hv := validate_profile_data_eq_false env.profile h
  unfold send_connection_request
  cases env.navResult with
  | error e => simp
  | ok u =>
    cases env.scrollResult with
    | error e => simp
    | ok u' => simp [hv]

/-- Witness for C1 at a concrete environment whose profile is empty. -/
theorem insufficiency_blocks_message_generation_witness :
    (send_connection_request envBare "https://x/in/a").1.success = false ∧
    Ev.generateMsg ∉ (send_connection_request envBare "https://x/in/a").2 :=
  insufficiency_blocks_message_generation envBare "https://x/in/a" (Or.inl rfl)

/-- Counting an event absent from a trace gives zero. -/
theorem countEv_of_not_mem {e : Ev} {l : List Ev} (h : e ∉ l) : countEv e l = 0 := by
  unfold countEv
  exact List.count_eq_zero.mpr h

/-- `countEv` distributes over concatenation. -/
theorem countEv_append (e : Ev) (l₁ l₂ : List Ev) :
    countEv e (l₁ ++ l₂) = countEv e l₁ + countEv e l₂ := by
  unfold countEv
  exact List.count_append e l₁ l₂

/-- **C10** (temporal): whenever sufficiency validation passes, the
message-generation collaborator is invoked exactly once, and before any
attempt to locate the Connect button: the trace contains exactly one
`generateMsg` event and splits as `pre ++ generateMsg :: post` with no
detector call in `pre`.  In particular runs that later fail (button not
found, modal failure) have still incurred the one generation call. -/
theorem generation_once_and_before_locating (env : ConnEnv) (url : String)
    (hn : env.navResult = Except.ok ()) (hs : env.scrollResult = Except.ok ())
    (hv : validate_profile_data env.profile = true) :
    countEv Ev.generateMsg (send_connection_request env url).2 = 1 ∧
    ∃ pre post, (send_connection_request env url).2 = pre ++ Ev.generateMsg :: post ∧
      Ev.findConnectCall ∉ pre := by
  have h1 : List.count Ev.generateMsg (findConnectLoop env.connect 0 3).2 = 0 :=
    List.count_eq_zero.mpr (generateMsg_not_in_findConnectLoop env.connect 0 3)
  have h2 : List.count Ev.generateMsg (handle_connection_modal env).2 = 0 :=
    List.count_eq_zero.mpr (generateMsg_not_in_modal env)
  unfold send_connection_request
  rw [hn, hs]
  simp only [hv, Bool.not_true]
  by_cases hfc : (findConnectLoop env.connect 0 3).1
  · simp only [hfc, Bool.not_true]
    cases hclick : env.clickResult with
    | error e =>
      constructor
      · simp [countEv_append, h1, countEv, List.count_cons]
      · exact ⟨[Ev.nav, Ev.scrollSim, Ev.extractData, Ev.validateData],
          (findConnectLoop env.connect 0 3).2 ++ [Ev.connectClick], by simp, by decide⟩
    | ok u =>
      by_cases hm : (handle_connection_modal env).1
      · simp only [hm]
        constructor
        · simp [countEv_append, h1, h2, countEv, List.count_cons]
        · exact ⟨[Ev.nav, Ev.scrollSim, Ev.extractData, Ev.validateData],
            (findConnectLoop env.connect 0 3).2 ++ [Ev.connectClick] ++
              (handle_connection_modal env).2, by simp, by decide⟩
      · simp only [hm]
        constructor
        · simp [countEv_append, h1, h2, countEv, List.count_cons]
        · exact ⟨[Ev.nav, Ev.scrollSim, Ev.extractData, Ev.validateData],
            (findConnectLoop env.connect 0 3).2 ++ [Ev.connectClick] ++
              (handle_connection_modal env).2, by simp, by decide⟩
  · simp only [hfc, Bool.not_false]
    constructor
    · simp [countEv_append, h1, countEv, List.count_cons]
    · exact ⟨[Ev.nav, Ev.scrollSim, Ev.extractData, Ev.validateData],
        (findConnectLoop env.connect 0 3).2, by simp, by decide⟩

/-- Witness for C10 at the all-success environment. -/
theorem generation_once_and_before_locating_witness :
    countEv Ev.generateMsg (send_connection_request envOK "u").2 = 1 ∧
    ∃ pre post, (send_connection_request envOK "u").2 = pre ++ Ev.generateMsg :: post ∧
      Ev.findConnectCall ∉ pre :=
  generation_once_and_before_locating envOK "u" rfl rfl rfl

/-- The retry loop with budget `n` makes at most `n` detector calls. -/
theorem findConnectLoop_call_count (c : Nat → ConnectOutcome) :
    ∀ n i, countEv Ev.findConnectCall (findConnectLoop c i n).2 ≤ n := by
  intro n
  induction n with
  | zero => intro i; simp [findConnectLoop, countEv]
  | succ n ih =>
    intro i
    unfold findConnectLoop
    by_cases hh : isHit (c i)
    · simp [hh, countEv]
    · simp only [hh, Bool.false_eq_true, if_false]
      have h' := ih (i + 1)
      simp only [countEv] at h' ⊢
      simp [List.count_cons]
      omega

/-- C7 helper: no detector call occurs in the modal trace. -/
theorem findConnectCall_not_in_modal (env : ConnEnv) :
    Ev.findConnectCall ∉ (handle_connection_modal env).2 := by
  intro h
  rcases modal_trace_events env _ h with h' | h' | h' | h' | h' <;> exact Ev.noConfusion h'

/-- C7 helper: a run of three missed attempts reports no button. -/
theorem findConnectLoop_exhausted (c : Nat → ConnectOutcome)
    (h : ∀ i, i < 3 → isHit (c i) = false) :
    (findConnectLoop c 0 3).1 = false := by
  have h0 := h 0 (by omega)
  have h1 := h 1 (by omega)
  have h2 := h 2 (by omega)
  simp [findConnectLoop, h0, h1, h2]

/-- **C7** (termination_resources): locating the Connect control is
retried at most 3 times — the whole run contains at most 3 detector
calls, however often the underlying resolver fails; the retry-loop trace
is one of the four bounded shapes with a jittered 1-3s backoff after
each miss; and when all three attempts miss, the attempt is marked
failed with the button-not-found classification. -/
theorem connect_button_retry_bound (env : ConnEnv) (url : String) :
    countEv Ev.findConnectCall (send_connection_request env url).2 ≤ 3 ∧
    ((findConnectLoop env.connect 0 3).2 = [Ev.findConnectCall] ∨
     (findConnectLoop env.connect 0 3).2 =
       [Ev.findConnectCall, Ev.backoff 1 3, Ev.findConnectCall] ∨
     (findConnectLoop env.connect 0 3).2 =
       [Ev.findConnectCall, Ev.backoff 1 3, Ev.findConnectCall, Ev.backoff 1 3,
        Ev.findConnectCall] ∨
     (findConnectLoop env.connect 0 3).2 =
       [Ev.findConnectCall, Ev.backoff 1 3, Ev.findConnectCall, Ev.backoff 1 3,
        Ev.findConnectCall, Ev.backoff 1 3]) ∧
    (env.navResult = Except.ok () → env.scrollResult = Except.ok () →
     validate_profile_data env.profile = true →
     (∀ i, i < 3 → isHit (env.connect i) = false) →
     (send_connection_request env url).1.success = false ∧
     (send_connection_request env url).1.error = "Could not find Connect button") := by
  refine ⟨?_, ?_, ?_⟩
  · have hl := findConnectLoop_call_count env.connect 3 0
    have hm : List.count Ev.findConnectCall (handle_connection_modal env).2 = 0 :=
      List.count_eq_zero.mpr (findConnectCall_not_in_modal env)
    unfold send_connection_request
    cases env.navResult with
    | error e => simp [countEv]
    | ok u =>
      cases env.scrollResult with
      | error e => simp [countEv]
      | ok u' =>
        by_cases hv : validate_profile_data env.profile
        · simp only [hv, Bool.not_true]
          by_cases hfc : (findConnectLoop env.connect 0 3).1
          · simp only [hfc, Bool.not_true]
            cases env.clickResult with
            | error e =>
              simp only [countEv, List.count_append, List.count_cons] at *
              simp
              omega
            | ok u'' =>
              by_cases hmod : (handle_connection_modal env).1 <;>
                · simp only [hmod, countEv, List.count_append, List.count_cons] at *
                  simp [hm]
                  omega
          · simp only [hfc, Bool.not_false]
            simp only [countEv, List.count_append, List.count_cons] at *
            simp
            omega
        · simp [hv, countEv]
  · by_cases h0 : isHit (env.connect 0) <;>
      by_cases h1 : isHit (env.connect 1) <;>
        by_cases h2 : isHit (env.connect 2) <;>
          simp [findConnectLoop, h0, h1, h2]
  · intro hn hs hv hmiss
    have hfc : (findConnectLoop env.connect 0 3).1 = false :=
      findConnectLoop_exhausted env.connect hmiss
    unfold send_connection_request
    rw [hn, hs]
    simp [hv, hfc]

/-- Like `envOK` but every detector call raises. -/
def envMiss : ConnEnv :=
  { envOK with connect := fun _ => ConnectOutcome.raised "timeout" }

/-- Witness for C7: an environment where every attempt raises. -/
theorem connect_button_retry_bound_witness :
    countEv Ev.findConnectCall (send_connection_request envMiss "u").2 ≤ 3 ∧
    (send_connection_request envMiss "u").1.success = false ∧
    (send_connection_request envMiss "u").1.error = "Could not find Connect button" := by
  refine ⟨(connect_button_retry_bound envMiss "u").1, ?_⟩
  exact (connect_button_retry_bound envMiss "u").2.2 rfl rfl rfl
    (fun i _ => rfl)

/-- **C8** (functional_correctness): for any ordered list of detection
strategies in the resolver loop of `ElementDetector`, if strategy `k` is
the first whose result is a currently-visible element, the resolver
returns exactly that strategy's match and evaluates exactly `k + 1`
strategies (none after `k`); and a strategy that raises is treated as a
miss — the selection over `raised e :: rest` equals the selection over
`rest`. -/
theorem resolver_short_circuit {α : Type} :
    (∀ (L : List (StratOutcome α)) (k : Nat) (hk : k < L.length) (a : α),
      L.get ⟨k, hk⟩ = StratOutcome.found a true →
      (∀ j (hj : j < L.length), j < k → isVisibleMatch (L.get ⟨j, hj⟩) = false) →
      resolve_strategies L = (some a, k + 1)) ∧
    (∀ (e : String) (rest : List (StratOutcome α)),
      (resolve_strategies (StratOutcome.raised e :: rest)).1 =
        (resolve_strategies rest).1) := by
  constructor
  · intro L
    induction L with
    | nil => intro k hk; simp at hk
    | cons x xs ih =>
      intro k hk a hka hbefore
      cases k with
      | zero =>
        simp only [List.get] at hka
        rw [hka]
        rfl
      | succ k =>
        have hx : isVisibleMatch x = false := hbefore 0 (by simp) (by omega)
        have hxs : resolve_strategies xs = (some a, k + 1) := by
          apply ih k (by simpa using hk) a
          · simpa using hka
          · intro j hj hjk
            exact hbefore (j + 1) (by simpa using hj) (by omega)
        cases x with
        | raised e => simp [resolve_strategies, hxs]
        | noMatch => simp [resolve_strategies, hxs]
        | found b vis =>
          cases vis with
          | true => simp [isVisibleMatch] at hx
          | false => simp [resolve_strategies, hxs]
  · intro e rest
    simp [resolve_strategies]

/-- Witness for C8: four strategies, the third is the first visible
match (the first misses, the second raises). -/
theorem resolver_short_circuit_witness :
    resolve_strategies
      [StratOutcome.noMatch, StratOutcome.raised "bad selector",
       StratOutcome.found 7 true, StratOutcome.noMatch] = (some 7, 3) ∧
    (resolve_strategies (StratOutcome.raised "x" :: [StratOutcome.found 5 true])).1 =
      (resolve_strategies [StratOutcome.found 5 true]).1 := by
  constructor
  · exact (resolver_short_circuit (α := Nat)).1
      [StratOutcome.noMatch, StratOutcome.raised "bad selector",
       StratOutcome.found 7 true, StratOutcome.noMatch]
      2 (by decide) 7 rfl (by decide)
  · exact (resolver_short_circuit (α := Nat)).2 "x" [StratOutcome.found 5 true]

/-- The tail equation of `delayedAlternate`. -/
theorem delayedAlternate_cons (u : String) (rest : List String) :
    delayedAlternate (u :: rest) =
      BulkEv.delay 30 120 :: BulkEv.attempt u :: delayedAlternate rest := rfl

/-- Prepending a delay does not change the attempt count. -/
theorem countAttempts_cons_delay (lo hi : Nat) (l : List BulkEv) :
    countAttempts (BulkEv.delay lo hi :: l) = countAttempts l := rfl

/-- Prepending an attempt raises the attempt count by one. -/
theorem countAttempts_cons_attempt (u : String) (l : List BulkEv) :
    countAttempts (BulkEv.attempt u :: l) = countAttempts l + 1 := rfl

/-- A bulk loop in which every attempt succeeds processes the full
sliced list: one result per prospect, and the trace is the alternating
attempt/delay shape (leading delay exactly when the enumeration index is
positive). -/
theorem send_bulk_loop_all_success (envs : Nat → ConnEnv) (m : Nat)
    (hs : ∀ i u, ((send_connection_request (envs i) u).1).success = true) :
    ∀ (us : List String) (i succ : Nat), succ + us.length ≤ m →
      (send_bulk_loop envs m us i succ).1.length = us.length ∧
      (send_bulk_loop envs m us i succ).2 =
        (if i = 0 then alternate us else delayedAlternate us) := by
  intro us
  induction us with
  | nil =>
    intro i succ h
    simp [send_bulk_loop, alternate, delayedAlternate]
  | cons u rest ih =>
    intro i succ h
    have hlt : ¬ m ≤ succ := by
      simp only [List.length_cons] at h
      omega
    have hone :
        (succ + if ((send_connection_request (envs i) u).1).success then 1 else 0) =
          succ + 1 := by
      rw [hs i u]
      rfl
    unfold send_bulk_loop
    rw [if_neg hlt, hone]
    have hnext := ih (i + 1) (succ + 1)
      (by simp only [List.length_cons] at h; omega)
    constructor
    · simp [hnext.1]
    · rcases Nat.eq_zero_or_pos i with hi | hi
      · subst hi
        rw [hnext.2, if_neg (by omega : ¬ (0 : Nat) + 1 = 0),
          if_neg (by omega : ¬ (0 : Nat) < 0), List.nil_append,
          if_pos (rfl : (0 : Nat) = 0)]
        rfl
      · have hi0 : i ≠ 0 := Nat.pos_iff_ne_zero.mp hi
        rw [hnext.2, if_neg (by omega : ¬ i + 1 = 0), if_pos hi, if_neg hi0,
          delayedAlternate_cons]
        rfl

/-- The number of attempts in the all-delays trace equals the number of
prospects. -/
theorem countAttempts_delayedAlternate (us : List String) :
    countAttempts (delayedAlternate us) = us.length := by
  induction us with
  | nil => rfl
  | cons u rest ih =>
    rw [delayedAlternate_cons, countAttempts_cons_delay,
      countAttempts_cons_attempt, ih]
    rfl

/-- Same for the shape with no leading delay. -/
theorem countAttempts_alternate (us : List String) :
    countAttempts (alternate us) = us.length := by
  cases us with
  | nil => rfl
  | cons u rest =>
    rw [show alternate (u :: rest) = BulkEv.attempt u :: delayedAlternate rest
        from rfl,
      countAttempts_cons_attempt, countAttempts_delayedAlternate]
    rfl

/-- The bulk loop never performs more attempts than it has prospects. -/
theorem countAttempts_send_bulk_loop (envs : Nat → ConnEnv) (m : Nat) :
    ∀ (us : List String) (i succ : Nat),
      countAttempts (send_bulk_loop envs m us i succ).2 ≤ us.length := by
  intro us
  induction us with
  | nil => intro i succ; simp [send_bulk_loop, countAttempts]
  | cons u rest ih =>
    intro i succ
    unfold send_bulk_loop
    by_cases hb : m ≤ succ
    · simp [hb, countAttempts]
    · rw [if_neg hb]
      have h' := ih (i + 1)
        (succ + if ((send_connection_request (envs i) u).1).success then 1 else 0)
      rcases Nat.eq_zero_or_pos i with hi | hi
      · subst hi
        rw [if_neg (by omega : ¬ (0 : Nat) < 0), List.nil_append,
          countAttempts_cons_attempt]
        exact Nat.succ_le_succ h'
      · rw [if_pos hi, List.cons_append, List.nil_append,
          countAttempts_cons_delay, countAttempts_cons_attempt]
        exact Nat.succ_le_succ h'

/-- **C5** (functional_correctness): `send_bulk_requests` with a cap of
9 on 20 prospects, all of whose attempts succeed, performs exactly 9
send attempts and returns exactly 9 results; the trace is sequential
with a 30-120s cooldown before every attempt except the first; and in
general the number of attempts never exceeds the cap. -/
theorem bulk_cap_respected (envs : Nat → ConnEnv) (ps : List String)
    (h20 : ps.length = 20)
    (hs : ∀ i u, ((send_connection_request (envs i) u).1).success = true) :
    countAttempts (send_bulk_requests envs ps 9).2 = 9 ∧
    (send_bulk_requests envs ps 9).1.length = 9 ∧
    (send_bulk_requests envs ps 9).2 = alternate (ps.take 9) ∧
    (∀ (envs' : Nat → ConnEnv) (ps' : List String) (m : Nat),
      countAttempts (send_bulk_requests envs' ps' m).2 ≤ m) := by
  have hlen : (ps.take 9).length = 9 := by
    rw [List.length_take, h20]
    omega
  have hrun := send_bulk_loop_all_success envs 9 hs (ps.take 9) 0 0
    (by rw [hlen])
  refine ⟨?_, ?_, ?_, ?_⟩
  · unfold send_bulk_requests
    rw [hrun.2]
    simp [countAttempts_alternate, hlen]
  · unfold send_bulk_requests
    rw [hrun.1, hlen]
  · unfold send_bulk_requests
    rw [hrun.2]
    simp
  · intro envs' ps' m
    calc countAttempts (send_bulk_requests envs' ps' m).2
        ≤ (ps'.take m).length := countAttempts_send_bulk_loop envs' m (ps'.take m) 0 0
      _ ≤ m := by rw [List.length_take]; omega

/-- Witness for C5 at the all-success environment over 20 prospects. -/
theorem bulk_cap_respected_witness :
    countAttempts (send_bulk_requests (fun _ => envOK) (List.replicate 20 "u") 9).2 = 9 ∧
    (send_bulk_requests (fun _ => envOK) (List.replicate 20 "u") 9).1.length = 9 := by
  have h := bulk_cap_respected (fun _ => envOK) (List.replicate 20 "u")
    (by simp) (fun i u => rfl)
  exact ⟨h.1, h.2.1⟩

/-- Every event of a bulk trace is a 30-120s delay or an attempt. -/
theorem bulk_trace_events (envs : Nat → ConnEnv) (m : Nat) :
    ∀ (us : List String) (i succ : Nat),
      ∀ e ∈ (send_bulk_loop envs m us i succ).2,
        e = BulkEv.delay 30 120 ∨ ∃ u, e = BulkEv.attempt u := by
  intro us
  induction us with
  | nil => intro i succ e he; simp [send_bulk_loop] at he
  | cons u rest ih =>
    intro i succ e he
    unfold send_bulk_loop at he
    by_cases hb : m ≤ succ
    · simp [hb] at he
    · rw [if_neg hb] at he
      simp only [List.mem_append, List.mem_cons] at he
      rcases he with he | he | he
      · rcases Nat.eq_zero_or_pos i with hi | hi
        · subst hi; simp at he
        · simp [Nat.pos_iff_ne_zero.mp hi, hi] at he
          exact Or.inl he
      · exact Or.inr ⟨u, he⟩
      · exact ih (i + 1) _ e he

/-- **C2 (amended)**: the rate-limit classifier `handle_rate_limiting`,
when invoked on an error containing "too many requests", does sleep an
extended 300-900s cooldown and reports `True`; but no caller ever
invokes it — in particular `send_bulk_requests` emits only 30-120s
inter-request delays, never an extended cooldown, after any result
including rate-limited errors. -/
theorem rate_limit_classifier_unwired :
    (∀ msg : String,
      containsSubstr (strToLower msg) "too many requests" = true →
      handle_rate_limiting msg = (true, [BulkEv.delay 300 900])) ∧
    (∀ (envs : Nat → ConnEnv) (ps : List String) (m : Nat),
      BulkEv.delay 300 900 ∉ (send_bulk_requests envs ps m).2) := by
  constructor
  · intro msg h
    have hc : (rate_limit_indicators.any
        fun ind => containsSubstr (strToLower msg) ind) = true := by
      simp only [rate_limit_indicators, List.any_cons, List.any_nil,
        Bool.or_eq_true]
      tauto
    unfold handle_rate_limiting
    rw [if_pos hc]
  · intro envs ps m hmem
    rcases bulk_trace_events envs m (ps.take m) 0 0 _ hmem with h | ⟨u, h⟩
    · simp at h
    · exact BulkEv.noConfusion h

/-- Witness for C2 (amended) at a concrete rate-limited message. -/
theorem rate_limit_classifier_unwired_witness :
    handle_rate_limiting "Error: too many requests, slow down" =
      (true, [BulkEv.delay 300 900]) ∧
    BulkEv.delay 300 900 ∉ (send_bulk_requests (fun _ => envOK) ["u0", "u1"] 9).2 :=
  ⟨rate_limit_classifier_unwired.1 "Error: too many requests, slow down" (by decide),
   rate_limit_classifier_unwired.2 (fun _ => envOK) ["u0", "u1"] 9⟩

/-- An environment in which navigation fails with LinkedIn's
rate-limit message. -/
def envRL : Nat → ConnEnv :=
  fun _ => { envOK with navResult := Except.error "too many requests" }

/-- **C2 counterexample**: a bulk run whose first attempt fails with
"too many requests" proceeds to the next attempt after only the normal
30-120s inter-request delay; no 300-900s extended cooldown occurs
anywhere in the run, contradicting the claim that the orchestrator
delays its next action by an extended cooldown. -/
theorem rate_limit_no_cooldown_counterexample :
    ((send_bulk_requests envRL ["u0", "u1"] 9).1.map (fun r => r.error)) =
      ["too many requests", "too many requests"] ∧
    (send_bulk_requests envRL ["u0", "u1"] 9).2 =
      [BulkEv.attempt "u0", BulkEv.delay 30 120, BulkEv.attempt "u1"] ∧
    BulkEv.delay 300 900 ∉ (send_bulk_requests envRL ["u0", "u1"] 9).2 := by
  refine ⟨rfl, rfl, ?_⟩
  rw [show (send_bulk_requests envRL ["u0", "u1"] 9).2 =
    [BulkEv.attempt "u0", BulkEv.delay 30 120, BulkEv.attempt "u1"] from rfl]
  decide

/-- A successful modal handler run has clicked the Send control. -/
theorem sendClick_mem_modal_of_true (env : ConnEnv)
    (h : (handle_connection_modal env).1 = true) :
    Ev.sendClick ∈ (handle_connection_modal env).2 := by
  revert h
  unfold handle_connection_modal
  cases env.modalWaitResult <;>
    cases env.msgInputFound <;>
      cases env.inputInteract <;>
        cases env.sendButtonFound <;>
          cases env.sendClickResult <;>
            · intro h
              simp_all

/-- Branch equation: failed navigation. -/
theorem send_eq_nav_error (env : ConnEnv) (url e : String)
    (hn : env.navResult = Except.error e) :
    send_connection_request env url =
      ({ success := false, profile_url := url, message_sent := "", error := e },
       [Ev.nav]) := by
  unfold send_connection_request
  simp [hn]

/-- Branch equation: failed scroll simulation. -/
theorem send_eq_scroll_error (env : ConnEnv) (url e : String)
    (hn : env.navResult = Except.ok ()) (hsc : env.scrollResult = Except.error e) :
    send_connection_request env url =
      ({ success := false, profile_url := url, message_sent := "", error := e },
       [Ev.nav, Ev.scrollSim]) := by
  unfold send_connection_request
  simp [hn, hsc]

/-- Branch equation: insufficient profile data. -/
theorem send_eq_insufficient (env : ConnEnv) (url : String)
    (hn : env.navResult = Except.ok ()) (hsc : env.scrollResult = Except.ok ())
    (hv : validate_profile_data env.profile = false) :
    send_connection_request env url =
      ({ success := false, profile_url := url, message_sent := "",
         error := "Insufficient profile data for personalization" },
       [Ev.nav, Ev.scrollSim, Ev.extractData, Ev.validateData]) := by
  unfold send_connection_request
  simp [hn, hsc, hv]

/-- Branch equation: Connect button never found. -/
theorem send_eq_no_button (env : ConnEnv) (url : String)
    (hn : env.navResult = Except.ok ()) (hsc : env.scrollResult = Except.ok ())
    (hv : validate_profile_data env.profile = true)
    (hfc : (findConnectLoop env.connect 0 3).1 = false) :
    send_connection_request env url =
      ({ success := false, profile_url := url, message_sent := "",
         error := "Could not find Connect button" },
       [Ev.nav, Ev.scrollSim, Ev.extractData, Ev.validateData, Ev.generateMsg] ++
         (findConnectLoop env.connect 0 3).2) := by
  unfold send_connection_request
  simp [hn, hsc, hv, hfc]

/-- Branch equation: the click on the Connect button raised. -/
theorem send_eq_click_error (env : ConnEnv) (url e : String)
    (hn : env.navResult = Except.ok ()) (hsc : env.scrollResult = Except.ok ())
    (hv : validate_profile_data env.profile = true)
    (hfc : (findConnectLoop env.connect 0 3).1 = true)
    (hc : env.clickResult = Except.error e) :
    send_connection_request env url =
      ({ success := false, profile_url := url, message_sent := "", error := e },
       [Ev.nav, Ev.scrollSim, Ev.extractData, Ev.validateData, Ev.generateMsg] ++
         (findConnectLoop env.connect 0 3).2 ++ [Ev.connectClick]) := by
  unfold send_connection_request
  simp [hn, hsc, hv, hfc, hc]

/-- Branch equation: the modal could not be completed. -/
theorem send_eq_modal_failed (env : ConnEnv) (url : String)
    (hn : env.navResult = Except.ok ()) (hsc : env.scrollResult = Except.ok ())
    (hv : validate_profile_data env.profile = true)
    (hfc : (findConnectLoop env.connect 0 3).1 = true)
    (hc : env.clickResult = Except.ok ())
    (hm : (handle_connection_modal env).1 = false) :
    send_connection_request env url =
      ({ success := false, profile_url := url, message_sent := "",
         error := "Failed to send message in connection modal" },
       [Ev.nav, Ev.scrollSim, Ev.extractData, Ev.validateData, Ev.generateMsg] ++
         (findConnectLoop env.connect 0 3).2 ++
         (Ev.connectClick :: (handle_connection_modal env).2)) := by
  unfold send_connection_request
  simp [hn, hsc, hv, hfc, hc, hm]

/-- Branch equation: the request went through. -/
theorem send_eq_success (env : ConnEnv) (url : String)
    (hn : env.navResult = Except.ok ()) (hsc : env.scrollResult = Except.ok ())
    (hv : validate_profile_data env.profile = true)
    (hfc : (findConnectLoop env.connect 0 3).1 = true)
    (hc : env.clickResult = Except.ok ())
    (hm : (handle_connection_modal env).1 = true) :
    send_connection_request env url =
      ({ success := true, profile_url := url,
         message_sent := env.genResult.message, error := "" },
       [Ev.nav, Ev.scrollSim, Ev.extractData, Ev.validateData, Ev.generateMsg] ++
         (findConnectLoop env.connect 0 3).2 ++
         (Ev.connectClick :: (handle_connection_modal env).2)) := by
  unfold send_connection_request
  simp [hn, hsc, hv, hfc, hc, hm]

/-- **C9 (amended)**: every result of `send_connection_request`
satisfies: on success the Send control was clicked and `message_sent`
equals the generated message (hence is non-empty whenever the generator
produced a non-empty message — which the code does not itself enforce);
on failure `error` is non-empty, provided the texts of propagated
environment exceptions (navigation, scrolling, clicking) are non-empty
(the three internally-set classification strings always are). -/
theorem connection_result_invariant (env : ConnEnv) (url : String)
    (hgen : env.genResult.message ≠ "")
    (hnav : ∀ e, env.navResult = Except.error e → e ≠ "")
    (hscr : ∀ e, env.scrollResult = Except.error e → e ≠ "")
    (hclk : ∀ e, env.clickResult = Except.error e → e ≠ "") :
    ((send_connection_request env url).1.success = true →
      (send_connection_request env url).1.message_sent = env.genResult.message ∧
      (send_connection_request env url).1.message_sent ≠ "" ∧
      Ev.sendClick ∈ (send_connection_request env url).2) ∧
    ((send_connection_request env url).1.success = false →
      (send_connection_request env url).1.error ≠ "") := by
  cases hn : env.navResult with
  | error e =>
    rw [send_eq_nav_error env url e hn]
    exact ⟨fun h => absurd h (by simp), fun _ => hnav e hn⟩
  | ok u =>
    cases hsc : env.scrollResult with
    | error e =>
      rw [send_eq_scroll_error env url e hn hsc]
      exact ⟨fun h => absurd h (by simp), fun _ => hscr e hsc⟩
    | ok u' =>
      cases hv : validate_profile_data env.profile with
      | false =>
        rw [send_eq_insufficient env url hn hsc hv]
        refine ⟨fun h => absurd h (by simp), fun _ => ?_⟩
        show ("Insufficient profile data for personalization" : String) ≠ ""
        decide
      | true =>
        cases hfc : (findConnectLoop env.connect 0 3).1 with
        | false =>
          rw [send_eq_no_button env url hn hsc hv hfc]
          refine ⟨fun h => absurd h (by simp), fun _ => ?_⟩
          show ("Could not find Connect button" : String) ≠ ""
          decide
        | true =>
          cases hc : env.clickResult with
          | error e =>
            rw [send_eq_click_error env url e hn hsc hv hfc hc]
            exact ⟨fun h => absurd h (by simp), fun _ => hclk e hc⟩
          | ok u2 =>
            cases hm : (handle_connection_modal env).1 with
            | false =>
              rw [send_eq_modal_failed env url hn hsc hv hfc hc hm]
              refine ⟨fun h => absurd h (by simp), fun _ => ?_⟩
              show ("Failed to send message in connection modal" : String) ≠ ""
              decide
            | true =>
              rw [send_eq_success env url hn hsc hv hfc hc hm]
              refine ⟨fun _ => ⟨rfl, hgen, ?_⟩, fun h => absurd h (by simp)⟩
              exact List.mem_append_right _
                (List.mem_cons_of_mem _ (sendClick_mem_modal_of_true env hm))

/-- Witness for C9 (amended) at the all-success environment. -/
theorem connection_result_invariant_witness :
    (send_connection_request envOK "u").1.success = true ∧
    (send_connection_request envOK "u").1.message_sent = "Hello there" ∧
    Ev.sendClick ∈ (send_connection_request envOK "u").2 := by
  have h := connection_result_invariant envOK "u" (by decide)
    (fun e he => Except.noConfusion he) (fun e he => Except.noConfusion he)
    (fun e he => Except.noConfusion he)
  obtain ⟨hmsg, _, hclick⟩ := h.1 rfl
  exact ⟨rfl, hmsg, hclick⟩

/-- Like `envOK` but the generator consumed an API reply whose content
was only whitespace, so the generated message strips to the empty
string. -/
def envC9 : ConnEnv :=
  { envOK with
    genResult := generate_personalized_message (ApiOutcome.content "   ")
      "Hi there, I would love to connect." }

/-- **C9 counterexample**: with a whitespace-only API reply the attempt
still succeeds end-to-end, and the successful result carries an empty
`message_sent` — contradicting the claim that `success = true` implies a
non-empty message. -/
theorem success_with_empty_message_counterexample :
    (send_connection_request envC9 "u").1.success = true ∧
    (send_connection_request envC9 "u").1.message_sent = "" := by
  constructor
  · decide
  · decide

/-- `_process_profile` accepts only unseen, structurally valid profiles. -/
theorem process_profile_true {ex : List String} {v : Bool} {p : Prospect}
    (h : process_profile ex v p = true) :
    p.linkedin_url ∉ ex ∧ discoverer_validate_profile p = true := by
  unfold process_profile at h
  by_cases h1 : p.linkedin_url ∈ ex
  · rw [if_pos h1] at h
    exact absurd h (by simp)
  · rw [if_neg h1] at h
    by_cases h2 : discoverer_validate_profile p = true
    · exact ⟨h1, h2⟩
    · rw [if_pos (by simpa using h2)] at h
      exact absurd h (by simp)

/-- Everything the accumulation loop adds was accepted by
`_process_profile`: its URL is not persisted and it validates. -/
theorem accumulate_sound (existing : List String) (mx : Nat) :
    ∀ (stream : List (Prospect × Bool)) (acc : List Prospect),
      ∀ p ∈ accumulate existing mx acc stream,
        p ∈ acc ∨
          (p.linkedin_url ∉ existing ∧ discoverer_validate_profile p = true) := by
  intro stream
  induction stream with
  | nil =>
    intro acc p hp
    exact Or.inl hp
  | cons qv rest ih =>
    intro acc p hp
    unfold accumulate at hp
    by_cases hfull : mx ≤ acc.length
    · rw [if_pos hfull] at hp
      exact Or.inl hp
    · rw [if_neg hfull] at hp
      by_cases hproc : process_profile existing qv.2 qv.1 = true
      · rw [if_pos hproc] at hp
        rcases ih (acc ++ [qv.1]) p hp with hmem | hok
        · rcases List.mem_append.mp hmem with hmem' | hmem'
          · exact Or.inl hmem'
          · have : p = qv.1 := by simpa using hmem'
            subst this
            exact Or.inr (process_profile_true hproc)
        · exact Or.inr hok
      · rw [if_neg hproc] at hp
        exact ih acc p hp

/-- The final pass produces URL-distinct, validated prospects taken from
its input list, none of whose URLs were already seen. -/
theorem final_validation_sound (l : List Prospect) :
    ∀ seen : List String,
      ((final_validation_and_deduplication l seen).Pairwise
        fun a b => a.linkedin_url ≠ b.linkedin_url) ∧
      ∀ p ∈ final_validation_and_deduplication l seen,
        discoverer_validate_profile p = true ∧ p.linkedin_url ∉ seen ∧ p ∈ l := by
  induction l with
  | nil =>
    intro seen
    simp [final_validation_and_deduplication]
  | cons p rest ih =>
    intro seen
    unfold final_validation_and_deduplication
    by_cases hseen : p.linkedin_url ∈ seen
    · rw [if_pos hseen]
      refine ⟨(ih seen).1, ?_⟩
      intro q hq
      obtain ⟨h1, h2, h3⟩ := (ih seen).2 q hq
      exact ⟨h1, h2, List.mem_cons_of_mem p h3⟩
    · rw [if_neg hseen]
      by_cases hval : discoverer_validate_profile p = true
      · rw [if_pos hval]
        constructor
        · refine List.Pairwise.cons ?_ (ih (p.linkedin_url :: seen)).1
          intro q hq heq
          obtain ⟨_, h2, _⟩ := (ih (p.linkedin_url :: seen)).2 q hq
          exact h2 (heq ▸ List.mem_cons_self _ _)
        · intro q hq
          rcases List.mem_cons.mp hq with rfl | hq'
          · exact ⟨hval, hseen, List.mem_cons_self _ _⟩
          · obtain ⟨h1, h2, h3⟩ := (ih (p.linkedin_url :: seen)).2 q hq'
            exact ⟨h1, fun hs => h2 (List.mem_cons_of_mem _ hs),
              List.mem_cons_of_mem p h3⟩
      · rw [if_neg hval]
        refine ⟨(ih (p.linkedin_url :: seen)).1, ?_⟩
        intro q hq
        obtain ⟨h1, h2, h3⟩ := (ih (p.linkedin_url :: seen)).2 q hq
        exact ⟨h1, fun hs => h2 (List.mem_cons_of_mem _ hs),
          List.mem_cons_of_mem p h3⟩

/-- The merge inside `save_prospects` keeps URL-distinct prospects with
non-empty URLs not in the seen set. -/
theorem save_prospects_merge_sound (l : List Prospect) :
    ∀ seen : List String,
      ((save_prospects_merge l seen).Pairwise
        fun a b => a.linkedin_url ≠ b.linkedin_url) ∧
      ∀ p ∈ save_prospects_merge l seen,
        p.linkedin_url ∉ seen ∧ p.linkedin_url ≠ "" := by
  induction l with
  | nil =>
    intro seen
    simp [save_prospects_merge]
  | cons p rest ih =>
    intro seen
    unfold save_prospects_merge
    by_cases hkeep : p.linkedin_url ≠ "" ∧ p.linkedin_url ∉ seen
    · rw [if_pos hkeep]
      constructor
      · refine List.Pairwise.cons ?_ (ih (p.linkedin_url :: seen)).1
        intro q hq heq
        obtain ⟨h2, _⟩ := (ih (p.linkedin_url :: seen)).2 q hq
        exact h2 (heq ▸ List.mem_cons_self _ _)
      · intro q hq
        rcases List.mem_cons.mp hq with rfl | hq'
        · exact ⟨hkeep.2, hkeep.1⟩
        · obtain ⟨h2, h3⟩ := (ih (p.linkedin_url :: seen)).2 q hq'
          exact ⟨fun hs => h2 (List.mem_cons_of_mem _ hs), h3⟩
    · rw [if_neg hkeep]
      exact ih seen

/-- **C4 (amended)**: the incremental check in `_process_profile` rejects
URLs already in the persisted set loaded at run start (and structurally
invalid profiles), but it does not consult the in-run accumulator — in-run
duplicates are removed only by the final pass, whose output is
URL-distinct with first occurrence winning; the persisted set written by
`save_prospects` is URL-distinct. -/
theorem dedup_enforced_amended :
    (∀ (existing : List String) (mx : Nat) (stream : List (Prospect × Bool)),
      ∀ p ∈ accumulate existing mx [] stream,
        p.linkedin_url ∉ existing ∧ discoverer_validate_profile p = true) ∧
    (∀ l : List Prospect,
      ((final_validation_and_deduplication l []).Pairwise
        fun a b => a.linkedin_url ≠ b.linkedin_url) ∧
      ∀ p ∈ final_validation_and_deduplication l [], p ∈ l) ∧
    (∀ existing new : List Prospect,
      (save_prospects existing new).Pairwise
        fun a b => a.linkedin_url ≠ b.linkedin_url) := by
  refine ⟨?_, ?_, ?_⟩
  · intro existing mx stream p hp
    rcases accumulate_sound existing mx stream [] p hp with hmem | hok
    · simp at hmem
    · exact hok
  · intro l
    refine ⟨(final_validation_sound l []).1, ?_⟩
    intro p hp
    exact ((final_validation_sound l []).2 p hp).2.2
  · intro existing new
    exact (save_prospects_merge_sound (existing ++ new) []).1

/-- A structurally valid prospect used to exhibit in-run duplication. -/
def pDup : Prospect :=
  { linkedin_url := "https://www.linkedin.com/in/jane", name := "Jane Roe",
    job_title := "Talent Partner", location := "Berlin", company := "Acme" }

/-- **C4 counterexample**: the same valid profile arriving twice in one
run is appended twice — the accumulation loop checks only the persisted
set, not the in-run accumulator, so the in-run list holds a duplicate
URL, contradicting the claimed incremental first-occurrence-wins check
against the accumulator.  (The final pass later removes it.) -/
theorem inrun_dedup_counterexample :
    accumulate [] 50 [] [(pDup, true), (pDup, true)] = [pDup, pDup] ∧
    ¬ ((accumulate [] 50 [] [(pDup, true), (pDup, true)]).Pairwise
      fun a b => a.linkedin_url ≠ b.linkedin_url) := by
  constructor
  · decide
  · intro hpair
    rw [show accumulate [] 50 [] [(pDup, true), (pDup, true)] = [pDup, pDup]
      from by decide] at hpair
    exact (List.pairwise_cons.mp hpair).1 pDup (List.mem_cons_self _ _) rfl

/-- Witness for C4 (amended) at a concrete one-element run. -/
theorem dedup_enforced_amended_witness :
    (pDup.linkedin_url ∉ ([] : List String) ∧
      discoverer_validate_profile pDup = true) ∧
    ((final_validation_and_deduplication [pDup, pDup] []).Pairwise
      fun a b => a.linkedin_url ≠ b.linkedin_url) :=
  ⟨dedup_enforced_amended.1 [] 50 [(pDup, true)] pDup (by decide),
   (dedup_enforced_amended.2.1 [pDup, pDup]).1⟩

/-- **C6 (amended)**: extraction-time validation
(`SearchStrategies._validate_profile_data` plus the URL guard in
`_extract_profile_data_from_item`) requires stripped name and location of
length ≥ 2, stripped job title of length ≥ 3, a relevance keyword, and a
URL containing "/in/"; the final pass applies the *different* check
`ProspectDiscoverer._validate_profile` (all four fields ≥ 2, URL
containing "/in/" and starting with "http", relevance keyword).  Every
extracted entry passed the extraction-time validation, and every
prospect surviving the final pass (or the per-profile processing)
satisfies the final-pass validator. -/
theorem validation_pipeline_amended :
    (∀ (it : SearchItem) (p : Prospect),
      extract_profile_data_from_item it = some p →
      search_validate_profile_data it.name it.job_title it.location = true ∧
      containsSubstr p.linkedin_url "/in/" = true) ∧
    (∀ (l : List Prospect) (seen : List String),
      ∀ p ∈ final_validation_and_deduplication l seen,
        discoverer_validate_profile p = true) ∧
    (∀ (existing : List String) (mx : Nat) (stream : List (Prospect × Bool)),
      ∀ p ∈ accumulate existing mx [] stream,
        discoverer_validate_profile p = true) := by
  refine ⟨?_, ?_, ?_⟩
  · intro it p h
    unfold extract_profile_data_from_item at h
    cases hh : it.href with
    | none =>
      rw [hh] at h
      exact Option.noConfusion h
    | some url =>
      rw [hh] at h
      dsimp only at h
      by_cases h1 : url = "" ∨ ¬ containsSubstr url "/in/" = true
      · rw [if_pos h1] at h
        exact Option.noConfusion h
      · rw [if_neg h1] at h
        push_neg at h1
        by_cases h2 :
            search_validate_profile_data it.name it.job_title it.location = true
        · rw [if_pos h2] at h
          obtain rfl := (Option.some.inj h).symm
          exact ⟨h2, by simpa using h1.2⟩
        · rw [if_neg h2] at h
          exact Option.noConfusion h
  · intro l seen p hp
    exact ((final_validation_sound l seen).2 p hp).1
  · intro existing mx stream p hp
    rcases accumulate_sound existing mx stream [] p hp with hmem | hok
    · simp at hmem
    · exact hok.2

/-- A search-result item whose relative profile link passes extraction
but fails the final-pass validator. -/
def itemRel : SearchItem :=
  { href := some "/in/jan-two", name := "Ann Lee", job_title := "HR Recruiter",
    location := "Berlin", company := "" }

/-- The prospect `itemRel` extracts to. -/
def prospectRel : Prospect :=
  { linkedin_url := "/in/jan-two", name := "Ann Lee", job_title := "HR Recruiter",
    location := "Berlin", company := "" }

/-- **C6 counterexample**: the two validations are not the same
pipeline.  `itemRel` (a relative `/in/...` link) is accepted at
extraction time, but the resulting prospect fails the final-pass
validator because that one additionally requires the URL to start with
"http"; moreover the final-pass validator accepts job titles of length
2 (e.g. "HR"), which the extraction-time validator rejects. -/
theorem validation_twice_counterexample :
    extract_profile_data_from_item itemRel = some prospectRel ∧
    discoverer_validate_profile prospectRel = false ∧
    discoverer_validate_profile
      { linkedin_url := "https://www.linkedin.com/in/ann", name := "Ann Lee",
        job_title := "HR", location := "Berlin", company := "" } = true ∧
    search_validate_profile_data "Ann Lee" "HR" "Berlin" = false := by
  refine ⟨by decide, by decide, by decide, by decide⟩

/-- A search-result item with an absolute link, used as witness. -/
def itemAbs : SearchItem :=
  { href := some "https://www.linkedin.com/in/ann", name := "Ann Lee",
    job_title := "HR Recruiter", location := "Berlin", company := "" }

/-- The prospect `itemAbs` extracts to. -/
def prospectAbs : Prospect :=
  { linkedin_url := "https://www.linkedin.com/in/ann", name := "Ann Lee",
    job_title := "HR Recruiter", location := "Berlin", company := "" }

/-- Witness for C6 (amended) at a concrete item and final pass. -/
theorem validation_pipeline_amended_witness :
    (search_validate_profile_data itemAbs.name itemAbs.job_title
        itemAbs.location = true ∧
      containsSubstr prospectAbs.linkedin_url "/in/" = true) ∧
    discoverer_validate_profile prospectAbs = true :=
  ⟨validation_pipeline_amended.1 itemAbs prospectAbs (by decide),
   validation_pipeline_amended.2.1 [prospectAbs] [] prospectAbs (by decide)⟩

/-- A fully responsive page: every simple selector answers with a
visible "Jane Roe" text (accepted by the name loop, rejected by the
job/location/summary acceptance tests), the section oracles are quiet. -/
def pageRich : PageDoc :=
  { basic := fun _ => FieldOutcome.text "Jane Roe"
    skillsSec := fun _ => SectionOutcome.notVisible
    experienceSec := fun _ => SectionOutcome.notVisible
    educationSec := fun _ => SectionOutcome.notVisible
    postsSec := fun _ => ItemsOutcome.items [] }

/-- **C3** (code_bug evaluation): `extract_profile_data` never performs
any field-group extraction.  Because the call at profile_scraper.py:61
targets a method `ElementDetector` does not have, the function returns
its current `profile_data` unchanged for *every* page and navigation
outcome — whereas the extraction passes it was meant to run (modelled
faithfully from lines 75-291 by `run_extractions`) would, on the fully
responsive `pageRich`, extract the name "Jane Roe".  The program is a
constant function where the claim (and the dead code's own intent)
promises best-effort, per-group isolated extraction. -/
theorem extraction_never_runs :
    (∀ (sd : String → String) (nav : Except String Unit) (page : PageDoc)
        (init : ProfileData),
      extract_profile_data sd nav page init = init) ∧
    (run_extractions id pageRich emptyProfile).name = "Jane Roe" ∧
    extract_profile_data id (Except.ok ()) pageRich emptyProfile = emptyProfile ∧
    run_extractions id pageRich emptyProfile ≠ emptyProfile := by
  refine ⟨?_, by decide, by decide, by decide⟩
  intro sd nav page init
  cases nav with
  | error e => rfl
  | ok u => rfl
